import Mathlib

/-!
Verification of the `GasStation` module of the thanos-wallet repository:
permit meta-transaction forging (`forgeTxAndParams` together with
`formTransferParams`, `permitParamHash`, `getUnpackedUniques`,
`createPermitPayload`) and batched fee estimation (`estimate`).

The module is a sequence of asynchronous calls to external collaborators
(a signer, an RPC node, a contract schema, the blake2b library).  We embed
it shallowly: every external call is a field of an explicit environment
record, and a computation is a `Res α` — the ordered trace of calls it
issued together with an `Except String α` outcome.  Sequencing of awaits
in the source becomes `Res.bind`, which stops issuing calls as soon as a
call fails, exactly as a rejected `await` aborts the async function.
The blake2b digest and the node-side packing are uninterpreted functions
supplied by the environment (their implementations are external
libraries, not code of this repository); `hex2buf` (byte decoding of the
hex string returned by the packing RPC) is implemented concretely.
-/

namespace GasStation

/-- Micheline expression trees as built by the source: `{ prim, args }`,
`{ string }`, `{ int }` (decimal string) and `{ bytes }` (hex string) nodes. -/
inductive Micheline where
  | prim (p : String) (args : List Micheline)
  | string (s : String)
  | int (i : String)
  | bytes (b : String)

/-- Argument of `tezos.rpc.packData`: a Micheline value and its Micheline type. -/
structure PackDataRequest where
  data : Micheline
  type : Micheline

/-- Input of `forgeTxAndParams` (TS type `ForgeTxParams`). -/
structure ForgeTxParams where
  to_ : String
  tokenAddress : String
  tokenId : Option Int
  amount : Int
  relayerFee : Int

/-- One leg of an FA2 transfer: the `{ to_, token_id, amount }` object. -/
structure Tx where
  to_ : String
  token_id : Option Int
  amount : Int

/-- One `{ from_, txs }` group of an FA2 transfer batch. -/
structure TransferGroup where
  from_ : String
  txs : List Tx

/-- The `txList` value built by `formTransferParams`: a list of lists of
transfer groups (nested one level). -/
abbrev TxList := List (List TransferGroup)

/-- The permit triple returned by `forgeTxAndParams` alongside the transfer
parameters (`Pick<PermitParams, "pubkey" | "signature" | "hash">`). -/
structure PermitSig where
  pubkey : String
  signature : String
  hash : String

/-- Relevant part of the token contract storage: the `permit_counter` field. -/
structure Storage where
  permit_counter : Nat

/-- Contract abstraction as used by the permit path: the parameter-schema
encoder `parameterSchema.Encode(entrypoint, ...parameters)` (which may throw
an encoding error) and the annotation-free root type
`parameterSchema.root.typeWithoutAnnotations()`. -/
structure Contract where
  parameterSchemaEncode : String → TxList → Except String Micheline
  schemaRootType : Micheline

/-- Opaque Tezos transfer-parameters descriptor, as returned by
`contract.methods....toTransferParams({})`.  The estimation path never
inspects it, so it is modelled as an opaque token. -/
structure TransferParamsTz where
  raw : String

/-- Operation kinds: the estimation path only uses `OpKind.TRANSACTION`. -/
inductive OpKind where
  | transaction

/-- One member of the batch handed to `tezos.estimate.batch`:
`{ kind: OpKind.TRANSACTION, ...tParams }`. -/
structure BatchOp where
  kind : OpKind
  params : TransferParamsTz

/-- One per-operation estimate returned by `tezos.estimate.batch`. -/
structure Estimate where
  suggestedFeeMutez : Nat

/-- The `callParams` carried inside `PermitParams`: target entrypoint name and
its argument list (opaque to the estimation path, which only spreads them). -/
structure CallParams where
  entrypoint : String
  params : List String

/-- Input of `estimate` (TS type `PermitParams`). -/
structure PermitParams where
  signature : String
  hash : String
  pubkey : String
  contractAddress : String
  callParams : CallParams

/-- Contract abstraction as used by the estimation path: `methods.permit`
applied to (pubkey, signature, hash) and the dynamic `methods[entrypoint]`
call, each followed by `.toTransferParams({})`. -/
structure EstContract where
  permitMethod : String → String → String → TransferParamsTz
  methodCall : String → List String → TransferParamsTz

/-- One external call issued by the module, recorded in order. -/
inductive Event where
  | walletGetPkh
  | walletAt (addr : String)
  | storageRead (addr : String)
  | signerPublicKey
  | rpcPackData (req : PackDataRequest)
  | rpcGetChainId
  | signerSign (payload : String)
  | setSignerProvider (addr : String) (pk : String)
  | estimatorContractAt (addr : String)
  | rpcEstimateBatch (ops : List BatchOp)

/-- Outcome of running an embedded computation: the ordered trace of external
calls it issued and either its value or the error of the first failing call. -/
structure Res (α : Type) where
  trace : List Event
  result : Except String α

/-- Sequencing of awaited steps: if the first computation fails, the second
never runs and issues no calls (a rejected await aborts the async function);
otherwise the traces concatenate. -/
def Res.bind {α β : Type} (x : Res α) (f : α → Res β) : Res β :=
  match x with
  | ⟨tr, .error e⟩ => ⟨tr, .error e⟩
  | ⟨tr, .ok a⟩ => ⟨tr ++ (f a).trace, (f a).result⟩

/-- A computation that issues no calls and returns a value. -/
def Res.pure {α : Type} (a : α) : Res α := ⟨[], .ok a⟩

/-- One external call: it is recorded in the trace, and its outcome is
whatever the environment answers. -/
def call {α : Type} (ev : Event) (r : Except String α) : Res α := ⟨[ev], r⟩

/-- Environment of external collaborators for the permit-forging path:
wallet (`pkh`, `at`), contract storage read, signer (`publicKey`, `sign`),
RPC (`packData` returning a hex string, `getChainId`), and the blake2b
digest as an uninterpreted function of the byte list and the output length. -/
structure Env where
  walletPkh : Except String String
  walletAt : String → Except String Contract
  storage : String → Except String Storage
  publicKey : Except String String
  sign : String → Except String String
  packData : PackDataRequest → Except String String
  getChainId : Except String String
  blake2bHex : List Nat → Nat → String

/-- Environment of external collaborators for the estimation path:
`estimator.contract.at` and `tezos.estimate.batch`. -/
structure EstEnv where
  contractAt : String → Except String EstContract
  estimateBatch : List BatchOp → Except String (List Estimate)

/-- Is the character a hexadecimal digit (the `[\da-f]` class, case
insensitive)? -/
def isHexDigit (c : Char) : Bool :=
  c.isDigit || (Char.ofNat 97 ≤ c && c ≤ Char.ofNat 102) ||
    (Char.ofNat 65 ≤ c && c ≤ Char.ofNat 70)

/-- Numeric value of a hexadecimal digit character. -/
def hexVal (c : Char) : Nat :=
  if c.isDigit then c.toNat - 48
  else if Char.ofNat 97 ≤ c && c ≤ Char.ofNat 102 then c.toNat - 97 + 10
  else c.toNat - 65 + 10

/-- Left-to-right scan of `hex.match(/[\da-f]{2}/gi)`: the first argument is
a pending hex digit whose two-character match is still open. -/
def hex2bufGo : Option Char → List Char → List Nat
  | _, [] => []
  | none, c :: rest =>
    if isHexDigit c then hex2bufGo (some c) rest else hex2bufGo none rest
  | some p, c :: rest =>
    if isHexDigit c then (16 * hexVal p + hexVal c) :: hex2bufGo none rest
    else hex2bufGo none rest

/-- `hex2buf` from `@taquito/utils`: decode a hex string into its byte list
(each non-overlapping pair of hex digits becomes one byte). -/
def hex2buf (hex : String) : List Nat := hex2bufGo none hex.data

/-- The fixed relayer address credited with the fee leg. -/
def RELAYER_ADDRESS : String := "tz1VSUr8wwNhLAzempoch5d6hLRiTh8Cjcjb"

/-- The fixed read-only identity address used for fee estimation. -/
def ESTIMATOR_ADDRESS : String := "tz1VSUr8wwNhLAzempoch5d6hLRiTh8Cjcjb"

/-- The public key of the fixed read-only estimation identity. -/
def ESTIMATOR_PUBLIC_KEY : String :=
  "edpkvGfYw3LyB1UcCahKQk4rF2tvbMUk8GFiTuMjL75uGXrpvKXhjn"

/-- Modelled from the spec: the `ReadOnlySigner` class lives in the
repository's `read-only-signer` module, which is not among the given source
files; per the spec it is a fixed, publicly known estimator identity (an
address and a public key) bound to the secondary RPC client purely so the
simulation endpoint has some signer identity. -/
structure ReadOnlySigner where
  pkh : String
  pk : String

/-- `formTransferParams`: build the nested FA2 transfer batch with the
intended leg and the relayer-fee leg sharing the same token id. -/
def formTransferParams (from_ : String) (relayerAddress : String)
    (p : ForgeTxParams) : TxList :=
  let intendedTx : Tx := ⟨p.to_, p.tokenId, p.amount⟩
  let feeTx : Tx := ⟨relayerAddress, p.tokenId, p.relayerFee⟩
  [[⟨from_, [intendedTx, feeTx]⟩]]

/-- `permitParamHash`: encode the entrypoint arguments through the contract's
parameter schema, pack them via the RPC with the schema's annotation-free
root type, and return the 32-byte blake2b hex digest of the packed bytes. -/
def permitParamHash (env : Env) (contract : Contract) (entrypoint : String)
    (parameters : TxList) : Res String :=
  match contract.parameterSchemaEncode entrypoint parameters with
  | .error e => ⟨[], .error e⟩
  | .ok encoded =>
    Res.bind
      (call (.rpcPackData ⟨encoded, contract.schemaRootType⟩)
        (env.packData ⟨encoded, contract.schemaRootType⟩))
      fun raw_packed =>
    Res.pure (env.blake2bHex (hex2buf raw_packed) 32)

/-- `getUnpackedUniques`: the typed Michelson pair
`((contractAddress, chainId), (permitCounter, hash))` handed to `packData`. -/
def getUnpackedUniques (contractAddress : String) (chainId : String)
    (currentPermitCount : Nat) (permitHash : String) : PackDataRequest :=
  { data := .prim "Pair"
      [ .prim "Pair" [.string contractAddress, .string chainId],
        .prim "Pair" [.int (Nat.repr currentPermitCount), .bytes permitHash] ],
    type := .prim "pair"
      [ .prim "pair" [.prim "address" [], .prim "chain_id" []],
        .prim "pair" [.prim "nat" [], .prim "bytes" []] ] }

/-- `createPermitPayload`: resolve the contract, read its storage, fetch the
signer key, hash the would-be call, read the chain id, pack the permit tuple,
and return `[signerKey, packedBytes, paramHash]`. -/
def createPermitPayload (env : Env) (contractAddress : String)
    (entrypoint : String) (params : TxList) : Res (String × String × String) :=
  Res.bind (call (.walletAt contractAddress) (env.walletAt contractAddress))
    fun contract =>
  Res.bind (call (.storageRead contractAddress) (env.storage contractAddress))
    fun storage =>
  Res.bind (call .signerPublicKey env.publicKey) fun signerKey =>
  Res.bind (permitParamHash env contract entrypoint params) fun paramHash =>
  Res.bind (call .rpcGetChainId env.getChainId) fun chainId =>
  let currentPermitCount := storage.permit_counter
  let unpacked :=
    getUnpackedUniques contractAddress chainId currentPermitCount paramHash
  Res.bind (call (.rpcPackData unpacked) (env.packData unpacked)) fun packed =>
  Res.pure (signerKey, packed, paramHash)

/-- `forgeTxAndParams`: build the transfer batch, create the permit payload
for the `transfer` entrypoint over that very batch, sign the packed bytes,
and return the batch together with `{ pubkey, signature, hash }`. -/
def forgeTxAndParams (env : Env) (params : ForgeTxParams) :
    Res (TxList × PermitSig) :=
  Res.bind (call .walletGetPkh env.walletPkh) fun pkh =>
  let transferParams := formTransferParams pkh RELAYER_ADDRESS params
  Res.bind (createPermitPayload env params.tokenAddress "transfer" transferParams)
    fun triple =>
  Res.bind (call (.signerSign triple.2.1) (env.sign triple.2.1)) fun signature =>
  Res.pure (transferParams, ⟨triple.1, signature, triple.2.2⟩)

/-- `estimateAsBatch`: tag every descriptor with `OpKind.TRANSACTION` and
submit them as one simulated batch. -/
def estimateAsBatch (env : EstEnv) (txs : List TransferParamsTz) :
    Res (List Estimate) :=
  let ops := txs.map fun tParams => BatchOp.mk OpKind.transaction tParams
  call (.rpcEstimateBatch ops) (env.estimateBatch ops)

/-- `estimate`: bind a read-only estimator identity, resolve the contract,
build the permit call and the relayed call, estimate both as one batch, and
return the sum of the suggested fees. -/
def estimate (env : EstEnv) (permitParams : PermitParams) : Res Nat :=
  Res.bind
    (call (.setSignerProvider ESTIMATOR_ADDRESS ESTIMATOR_PUBLIC_KEY)
      (.ok (ReadOnlySigner.mk ESTIMATOR_ADDRESS ESTIMATOR_PUBLIC_KEY)))
    fun _ =>
  Res.bind
    (call (.estimatorContractAt permitParams.contractAddress)
      (env.contractAt permitParams.contractAddress))
    fun contract =>
  let permit := contract.permitMethod permitParams.pubkey
    permitParams.signature permitParams.hash
  let feeTransfer := contract.methodCall permitParams.callParams.entrypoint
    permitParams.callParams.params
  Res.bind (estimateAsBatch env [permit, feeTransfer]) fun estimates =>
  Res.pure (estimates.foldl (fun acc est => acc + est.suggestedFeeMutez) 0)

/-! ### Run characterizations (shared helper lemmas) -/

/-- Full characterization of a successful run of `forgeTxAndParams`: the
exact ordered trace of external calls and the returned value, given the
answer of every call on the way. -/
theorem forgeTxAndParams_run (env : Env) (params : ForgeTxParams)
    (pkh : String) (contract : Contract) (counter : Nat) (encoded : Micheline)
    (signerKey packed1 chainId packed2 sig : String)
    (h1 : env.walletPkh = .ok pkh)
    (h2 : env.walletAt params.tokenAddress = .ok contract)
    (h3 : env.storage params.tokenAddress = .ok ⟨counter⟩)
    (h4 : env.publicKey = .ok signerKey)
    (h5 : contract.parameterSchemaEncode "transfer"
      (formTransferParams pkh RELAYER_ADDRESS params) = .ok encoded)
    (h6 : env.packData ⟨encoded, contract.schemaRootType⟩ = .ok packed1)
    (h7 : env.getChainId = .ok chainId)
    (h8 : env.packData (getUnpackedUniques params.tokenAddress chainId counter
      (env.blake2bHex (hex2buf packed1) 32)) = .ok packed2)
    (h9 : env.sign packed2 = .ok sig) :
    forgeTxAndParams env params =
      ⟨[.walletGetPkh, .walletAt params.tokenAddress,
        .storageRead params.tokenAddress, .signerPublicKey,
        .rpcPackData ⟨encoded, contract.schemaRootType⟩, .rpcGetChainId,
        .rpcPackData (getUnpackedUniques params.tokenAddress chainId counter
          (env.blake2bHex (hex2buf packed1) 32)),
        .signerSign packed2],
       .ok (formTransferParams pkh RELAYER_ADDRESS params,
         ⟨signerKey, sig, env.blake2bHex (hex2buf packed1) 32⟩)⟩ := by
  simp [forgeTxAndParams, createPermitPayload, permitParamHash, Res.bind,
    Res.pure, call, h1, h2, h3, h4, h5, h6, h7, h8, h9]

/-- If the signer's `publicKey` call fails, `forgeTxAndParams` stops right
there: the trace ends at the `publicKey` attempt and the error is returned
unmodified. -/
theorem forgeTxAndParams_publicKeyError (env : Env) (params : ForgeTxParams)
    (pkh : String) (contract : Contract) (counter : Nat) (e : String)
    (h1 : env.walletPkh = .ok pkh)
    (h2 : env.walletAt params.tokenAddress = .ok contract)
    (h3 : env.storage params.tokenAddress = .ok ⟨counter⟩)
    (hpk : env.publicKey = .error e) :
    forgeTxAndParams env params =
      ⟨[.walletGetPkh, .walletAt params.tokenAddress,
        .storageRead params.tokenAddress, .signerPublicKey], .error e⟩ := by
  simp [forgeTxAndParams, createPermitPayload, permitParamHash, Res.bind,
    Res.pure, call, h1, h2, h3, hpk]

/-- If the signer's `sign` call fails, `forgeTxAndParams` stops right there:
the trace ends at the `sign` attempt and the error is returned unmodified. -/
theorem forgeTxAndParams_signError (env : Env) (params : ForgeTxParams)
    (pkh : String) (contract : Contract) (counter : Nat) (encoded : Micheline)
    (signerKey packed1 chainId packed2 e : String)
    (h1 : env.walletPkh = .ok pkh)
    (h2 : env.walletAt params.tokenAddress = .ok contract)
    (h3 : env.storage params.tokenAddress = .ok ⟨counter⟩)
    (h4 : env.publicKey = .ok signerKey)
    (h5 : contract.parameterSchemaEncode "transfer"
      (formTransferParams pkh RELAYER_ADDRESS params) = .ok encoded)
    (h6 : env.packData ⟨encoded, contract.schemaRootType⟩ = .ok packed1)
    (h7 : env.getChainId = .ok chainId)
    (h8 : env.packData (getUnpackedUniques params.tokenAddress chainId counter
      (env.blake2bHex (hex2buf packed1) 32)) = .ok packed2)
    (h9 : env.sign packed2 = .error e) :
    forgeTxAndParams env params =
      ⟨[.walletGetPkh, .walletAt params.tokenAddress,
        .storageRead params.tokenAddress, .signerPublicKey,
        .rpcPackData ⟨encoded, contract.schemaRootType⟩, .rpcGetChainId,
        .rpcPackData (getUnpackedUniques params.tokenAddress chainId counter
          (env.blake2bHex (hex2buf packed1) 32)),
        .signerSign packed2], .error e⟩ := by
  simp [forgeTxAndParams, createPermitPayload, permitParamHash, Res.bind,
    Res.pure, call, h1, h2, h3, h4, h5, h6, h7, h8, h9]

/-! ### Concrete test doubles used by the witness theorems -/

/-- A concrete contract whose schema encoder always succeeds. -/
def testContract : Contract :=
  { parameterSchemaEncode := fun _ _ => .ok (.int "7"),
    schemaRootType := .prim "unit" [] }

/-- A concrete environment in which every external call succeeds. -/
def testEnv : Env :=
  { walletPkh := .ok "tz1source",
    walletAt := fun _ => .ok testContract,
    storage := fun _ => .ok ⟨5⟩,
    publicKey := .ok "edpkSIGNER",
    sign := fun payload => .ok ("sig:" ++ payload),
    packData := fun _ => .ok "0a",
    getChainId := .ok "NetXtest",
    blake2bHex := fun _ _ => "abcd" }

/-- `testEnv` with a failing `publicKey` call. -/
def testEnvPkFail : Env := { testEnv with publicKey := .error "pk boom" }

/-- `testEnv` with a failing `sign` call. -/
def testEnvSignFail : Env := { testEnv with sign := fun _ => .error "sign boom" }

/-- Concrete input parameters for the witnesses. -/
def testParams : ForgeTxParams :=
  { to_ := "tz1dest", tokenAddress := "KT1token", tokenId := some 0,
    amount := 10, relayerFee := 2 }

/-- A concrete estimation-side contract. -/
def testEstContract : EstContract :=
  { permitMethod := fun pk sig h => ⟨"permit|" ++ pk ++ "|" ++ sig ++ "|" ++ h⟩,
    methodCall := fun ep _ => ⟨"call|" ++ ep⟩ }

/-- A concrete estimation environment returning fees 100 and 250. -/
def testEstEnv : EstEnv :=
  { contractAt := fun _ => .ok testEstContract,
    estimateBatch := fun _ => .ok [⟨100⟩, ⟨250⟩] }

/-- `testEstEnv` with a failing batch simulation. -/
def testEstEnvFail : EstEnv :=
  { contractAt := fun _ => .ok testEstContract,
    estimateBatch := fun _ => .error "simulation rejected" }

/-- Concrete permit parameters for the estimation witnesses. -/
def testPermitParams : PermitParams :=
  { signature := "SIG", hash := "HASH", pubkey := "PK",
    contractAddress := "KT1token", callParams := ⟨"transfer", ["a", "b"]⟩ }

/-! ### Claim theorems -/

/-- C1: whenever every external call succeeds, `forgeTxAndParams` returns a
pair whose first component is the transfer batch
`formTransferParams pkh RELAYER_ADDRESS params` and whose permit hash is the
blake2b digest (32-byte output) of the bytes obtained by packing the schema
encoding of the `transfer` entrypoint applied to that very same batch
(hypotheses `h5`, `h6` name the encoding and packing of exactly the returned
batch): hash and relayer-submitted call arguments always agree. -/
theorem forge_hash_matches_returned_params (env : Env) (params : ForgeTxParams)
    (pkh : String) (contract : Contract) (counter : Nat) (encoded : Micheline)
    (signerKey packed1 chainId packed2 sig : String)
    (h1 : env.walletPkh = .ok pkh)
    (h2 : env.walletAt params.tokenAddress = .ok contract)
    (h3 : env.storage params.tokenAddress = .ok ⟨counter⟩)
    (h4 : env.publicKey = .ok signerKey)
    (h5 : contract.parameterSchemaEncode "transfer"
      (formTransferParams pkh RELAYER_ADDRESS params) = .ok encoded)
    (h6 : env.packData ⟨encoded, contract.schemaRootType⟩ = .ok packed1)
    (h7 : env.getChainId = .ok chainId)
    (h8 : env.packData (getUnpackedUniques params.tokenAddress chainId counter
      (env.blake2bHex (hex2buf packed1) 32)) = .ok packed2)
    (h9 : env.sign packed2 = .ok sig) :
    (forgeTxAndParams env params).result =
      .ok (formTransferParams pkh RELAYER_ADDRESS params,
        ⟨signerKey, sig, env.blake2bHex (hex2buf packed1) 32⟩) := by
  rw [forgeTxAndParams_run env params pkh contract counter encoded signerKey
    packed1 chainId packed2 sig h1 h2 h3 h4 h5 h6 h7 h8 h9]

/-- Witness for C1 at the concrete test double. -/
theorem forge_hash_matches_returned_params_witness :
    (forgeTxAndParams testEnv testParams).result =
      .ok (formTransferParams "tz1source" RELAYER_ADDRESS testParams,
        ⟨"edpkSIGNER", "sig:0a", "abcd"⟩) :=
  forge_hash_matches_returned_params testEnv testParams "tz1source"
    testContract 5 (.int "7") "edpkSIGNER" "0a" "NetXtest" "0a" "sig:0a"
    rfl rfl rfl rfl rfl rfl rfl rfl rfl

/-- C2: the bytes that are packed and then handed to the signer are exactly
the packing of the Michelson value
`Pair (Pair contractAddress chainId) (Pair permitCounter hash)` against the
type `pair (pair address chain_id) (pair nat bytes)`, with the contract
address and chain id as `string` nodes, the counter as an `int` node holding
its decimal representation, and the hash as a `bytes` node (hypothesis `h8`
spells that request literally); the last external call of the run is the
signature request over precisely those packed bytes. -/
theorem signed_bytes_are_packed_typed_pair (env : Env) (params : ForgeTxParams)
    (pkh : String) (contract : Contract) (counter : Nat) (encoded : Micheline)
    (signerKey packed1 chainId packed2 sig : String)
    (h1 : env.walletPkh = .ok pkh)
    (h2 : env.walletAt params.tokenAddress = .ok contract)
    (h3 : env.storage params.tokenAddress = .ok ⟨counter⟩)
    (h4 : env.publicKey = .ok signerKey)
    (h5 : contract.parameterSchemaEncode "transfer"
      (formTransferParams pkh RELAYER_ADDRESS params) = .ok encoded)
    (h6 : env.packData ⟨encoded, contract.schemaRootType⟩ = .ok packed1)
    (h7 : env.getChainId = .ok chainId)
    (h8 : env.packData
      { data := .prim "Pair"
          [ .prim "Pair" [.string params.tokenAddress, .string chainId],
            .prim "Pair" [.int (Nat.repr counter),
              .bytes (env.blake2bHex (hex2buf packed1) 32)] ],
        type := .prim "pair"
          [ .prim "pair" [.prim "address" [], .prim "chain_id" []],
            .prim "pair" [.prim "nat" [], .prim "bytes" []] ] } = .ok packed2)
    (h9 : env.sign packed2 = .ok sig) :
    (forgeTxAndParams env params).trace.getLast? =
      some (.signerSign packed2) := by
  rw [forgeTxAndParams_run env params pkh contract counter encoded signerKey
    packed1 chainId packed2 sig h1 h2 h3 h4 h5 h6 h7 h8 h9]
  rfl

/-- Witness for C2 at the concrete test double. -/
theorem signed_bytes_are_packed_typed_pair_witness :
    (forgeTxAndParams testEnv testParams).trace.getLast? =
      some (.signerSign "0a") :=
  signed_bytes_are_packed_typed_pair testEnv testParams "tz1source"
    testContract 5 (.int "7") "edpkSIGNER" "0a" "NetXtest" "0a" "sig:0a"
    rfl rfl rfl rfl rfl rfl rfl rfl rfl

/-- C3: for every input and every source address, the built transfer batch is
a one-element list of a one-element list holding a single `{ from_, txs }`
group with exactly two legs sharing the token id: the first sends `amount` to
the destination and the second sends `relayerFee` to the fixed relayer
address `tz1VSUr8wwNhLAzempoch5d6hLRiTh8Cjcjb`. -/
theorem transfer_batch_single_group_two_legs (from_ : String)
    (p : ForgeTxParams) :
    formTransferParams from_ RELAYER_ADDRESS p =
      [[{ from_ := from_,
          txs := [{ to_ := p.to_, token_id := p.tokenId, amount := p.amount },
                  { to_ := RELAYER_ADDRESS, token_id := p.tokenId,
                    amount := p.relayerFee }] }]]
    ∧ RELAYER_ADDRESS = "tz1VSUr8wwNhLAzempoch5d6hLRiTh8Cjcjb" :=
  ⟨rfl, rfl⟩

/-- C4: `permitParamHash` issues exactly one packing call — on the schema
encoding of the entrypoint arguments together with the schema's
annotation-free root type — and returns the blake2b digest, with 32-byte
output length, of the byte decoding of the packed hex string. -/
theorem permit_hash_is_blake2b_of_schema_packing (env : Env)
    (contract : Contract) (entrypoint : String) (args : TxList)
    (encoded : Micheline) (packed : String)
    (h5 : contract.parameterSchemaEncode entrypoint args = .ok encoded)
    (h6 : env.packData ⟨encoded, contract.schemaRootType⟩ = .ok packed) :
    permitParamHash env contract entrypoint args =
      ⟨[.rpcPackData ⟨encoded, contract.schemaRootType⟩],
       .ok (env.blake2bHex (hex2buf packed) 32)⟩ := by
  simp [permitParamHash, Res.bind, Res.pure, call, h5, h6]

/-- Witness for C4 at the concrete test double. -/
theorem permit_hash_is_blake2b_of_schema_packing_witness :
    permitParamHash testEnv testContract "transfer" [] =
      ⟨[.rpcPackData ⟨.int "7", .prim "unit" []⟩], .ok "abcd"⟩ :=
  permit_hash_is_blake2b_of_schema_packing testEnv testContract "transfer" []
    (.int "7") "0a" rfl rfl

/-- C5: in every run, the permit counter placed in the packed permit tuple is
exactly the value the storage read returned on that very run (a storage
answering `counter` yields a pack request carrying `counter`), and the trace
of every run contains the storage read itself — the embedding is stateless
across calls, so the counter is obtained anew from the storage answer on each
invocation, never from a cache. -/
theorem permit_counter_matches_storage_read (env : Env)
    (params : ForgeTxParams)
    (pkh : String) (contract : Contract) (counter : Nat) (encoded : Micheline)
    (signerKey packed1 chainId packed2 sig : String)
    (h1 : env.walletPkh = .ok pkh)
    (h2 : env.walletAt params.tokenAddress = .ok contract)
    (h3 : env.storage params.tokenAddress = .ok ⟨counter⟩)
    (h4 : env.publicKey = .ok signerKey)
    (h5 : contract.parameterSchemaEncode "transfer"
      (formTransferParams pkh RELAYER_ADDRESS params) = .ok encoded)
    (h6 : env.packData ⟨encoded, contract.schemaRootType⟩ = .ok packed1)
    (h7 : env.getChainId = .ok chainId)
    (h8 : env.packData (getUnpackedUniques params.tokenAddress chainId counter
      (env.blake2bHex (hex2buf packed1) 32)) = .ok packed2)
    (h9 : env.sign packed2 = .ok sig) :
    (Event.storageRead params.tokenAddress)
        ∈ (forgeTxAndParams env params).trace ∧
    (Event.rpcPackData (getUnpackedUniques params.tokenAddress chainId counter
        (env.blake2bHex (hex2buf packed1) 32)))
      ∈ (forgeTxAndParams env params).trace := by
  rw [forgeTxAndParams_run env params pkh contract counter encoded signerKey
    packed1 chainId packed2 sig h1 h2 h3 h4 h5 h6 h7 h8 h9]
  exact ⟨by simp, by simp⟩

/-- Witness for C5 at the concrete test double whose storage returns 5. -/
theorem permit_counter_matches_storage_read_witness :
    (Event.storageRead "KT1token") ∈ (forgeTxAndParams testEnv testParams).trace ∧
    (Event.rpcPackData (getUnpackedUniques "KT1token" "NetXtest" 5 "abcd"))
      ∈ (forgeTxAndParams testEnv testParams).trace :=
  permit_counter_matches_storage_read testEnv testParams "tz1source"
    testContract 5 (.int "7") "edpkSIGNER" "0a" "NetXtest" "0a" "sig:0a"
    rfl rfl rfl rfl rfl rfl rfl rfl rfl

/-- C6: `estimate` submits exactly two operations as one simulated batch —
the `permit` entrypoint applied to (publicKey, signature, hash) and the
target entrypoint applied to the original arguments, both tagged as
transactions — and, when the simulation answers two estimates, returns the
sum of their suggested fees. -/
theorem estimate_sums_batch_of_two_fees (env : EstEnv) (pp : PermitParams)
    (c : EstContract) (e1 e2 : Estimate)
    (h1 : env.contractAt pp.contractAddress = .ok c)
    (h2 : env.estimateBatch
      [⟨.transaction, c.permitMethod pp.pubkey pp.signature pp.hash⟩,
       ⟨.transaction, c.methodCall pp.callParams.entrypoint
         pp.callParams.params⟩] = .ok [e1, e2]) :
    estimate env pp =
      ⟨[.setSignerProvider ESTIMATOR_ADDRESS ESTIMATOR_PUBLIC_KEY,
        .estimatorContractAt pp.contractAddress,
        .rpcEstimateBatch
          [⟨.transaction, c.permitMethod pp.pubkey pp.signature pp.hash⟩,
           ⟨.transaction, c.methodCall pp.callParams.entrypoint
             pp.callParams.params⟩]],
       .ok (e1.suggestedFeeMutez + e2.suggestedFeeMutez)⟩ := by
  simp [estimate, estimateAsBatch, Res.bind, Res.pure, call, h1, h2]

/-- Witness for C6: fees 100 and 250 yield the total 350. -/
theorem estimate_sums_batch_of_two_fees_witness :
    estimate testEstEnv testPermitParams =
      ⟨[.setSignerProvider ESTIMATOR_ADDRESS ESTIMATOR_PUBLIC_KEY,
        .estimatorContractAt "KT1token",
        .rpcEstimateBatch
          [⟨.transaction, ⟨"permit|PK|SIG|HASH"⟩⟩,
           ⟨.transaction, ⟨"call|transfer"⟩⟩]],
       .ok 350⟩ :=
  estimate_sums_batch_of_two_fees testEstEnv testPermitParams testEstContract
    ⟨100⟩ ⟨250⟩ rfl rfl

/-- C7: if the signer fails — either on public-key retrieval or on signing
the packed bytes — `forgeTxAndParams` returns that very error unmodified and
its trace stops at the failing signer call: no packing, storage, chain-id or
other external call appears after the failure point. -/
theorem signer_error_propagates_no_further_calls (env : Env)
    (params : ForgeTxParams) (pkh : String) (contract : Contract)
    (counter : Nat) (e : String)
    (h1 : env.walletPkh = .ok pkh)
    (h2 : env.walletAt params.tokenAddress = .ok contract)
    (h3 : env.storage params.tokenAddress = .ok ⟨counter⟩) :
    (env.publicKey = .error e →
      forgeTxAndParams env params =
        ⟨[.walletGetPkh, .walletAt params.tokenAddress,
          .storageRead params.tokenAddress, .signerPublicKey], .error e⟩) ∧
    (∀ (encoded : Micheline) (signerKey packed1 chainId packed2 : String),
      env.publicKey = .ok signerKey →
      contract.parameterSchemaEncode "transfer"
        (formTransferParams pkh RELAYER_ADDRESS params) = .ok encoded →
      env.packData ⟨encoded, contract.schemaRootType⟩ = .ok packed1 →
      env.getChainId = .ok chainId →
      env.packData (getUnpackedUniques params.tokenAddress chainId counter
        (env.blake2bHex (hex2buf packed1) 32)) = .ok packed2 →
      env.sign packed2 = .error e →
      forgeTxAndParams env params =
        ⟨[.walletGetPkh, .walletAt params.tokenAddress,
          .storageRead params.tokenAddress, .signerPublicKey,
          .rpcPackData ⟨encoded, contract.schemaRootType⟩, .rpcGetChainId,
          .rpcPackData (getUnpackedUniques params.tokenAddress chainId counter
            (env.blake2bHex (hex2buf packed1) 32)),
          .signerSign packed2], .error e⟩) := by
  constructor
  · intro hpk
    exact forgeTxAndParams_publicKeyError env params pkh contract counter e
      h1 h2 h3 hpk
  · intro encoded signerKey packed1 chainId packed2 h4 h5 h6 h7 h8 h9
    exact forgeTxAndParams_signError env params pkh contract counter encoded
      signerKey packed1 chainId packed2 e h1 h2 h3 h4 h5 h6 h7 h8 h9

/-- Witness for C7: a public-key failure stops the run after four calls, and
a signing failure stops it right after the signature request, each time
propagating the error string unmodified. -/
theorem signer_error_propagates_no_further_calls_witness :
    (forgeTxAndParams testEnvPkFail testParams =
      ⟨[.walletGetPkh, .walletAt "KT1token", .storageRead "KT1token",
        .signerPublicKey], .error "pk boom"⟩) ∧
    (forgeTxAndParams testEnvSignFail testParams =
      ⟨[.walletGetPkh, .walletAt "KT1token", .storageRead "KT1token",
        .signerPublicKey, .rpcPackData ⟨.int "7", .prim "unit" []⟩,
        .rpcGetChainId,
        .rpcPackData (getUnpackedUniques "KT1token" "NetXtest" 5 "abcd"),
        .signerSign "0a"], .error "sign boom"⟩) :=
  ⟨(signer_error_propagates_no_further_calls testEnvPkFail testParams
      "tz1source" testContract 5 "pk boom" rfl rfl rfl).1 rfl,
   (signer_error_propagates_no_further_calls testEnvSignFail testParams
      "tz1source" testContract 5 "sign boom" rfl rfl rfl).2
     (.int "7") "edpkSIGNER" "0a" "NetXtest" "0a" rfl rfl rfl rfl rfl rfl⟩

/-- C8: if the batch simulation is rejected, `estimate` produces that single
error and no integer total: the result is the simulation's error, so no
partial sum is ever returned. -/
theorem estimate_no_partial_sum_on_rejection (env : EstEnv)
    (pp : PermitParams) (c : EstContract) (e : String)
    (h1 : env.contractAt pp.contractAddress = .ok c)
    (h2 : env.estimateBatch
      [⟨.transaction, c.permitMethod pp.pubkey pp.signature pp.hash⟩,
       ⟨.transaction, c.methodCall pp.callParams.entrypoint
         pp.callParams.params⟩] = .error e) :
    (estimate env pp).result = .error e := by
  simp [estimate, estimateAsBatch, Res.bind, Res.pure, call, h1, h2]

/-- Witness for C8 at a test double whose simulation is rejected. -/
theorem estimate_no_partial_sum_on_rejection_witness :
    (estimate testEstEnvFail testPermitParams).result =
      .error "simulation rejected" :=
  estimate_no_partial_sum_on_rejection testEstEnvFail testPermitParams
    testEstContract "simulation rejected" rfl rfl

/-- C9: a successful run of `forgeTxAndParams` issues exactly these external
calls in exactly this order — account address, contract resolution, storage
(permit-counter) read, signer public key, packing of the schema-encoded call,
chain-id read, packing of the permit tuple, signature — so the counter read
(position 2) and the chain-id read (position 5) both precede the permit-tuple
packing (position 6), which precedes the signature request (position 7), the
final call before the payload is returned; each step occurs exactly once,
none is reordered, skipped or retried. -/
theorem forge_steps_strictly_sequential (env : Env) (params : ForgeTxParams)
    (pkh : String) (contract : Contract) (counter : Nat) (encoded : Micheline)
    (signerKey packed1 chainId packed2 sig : String)
    (h1 : env.walletPkh = .ok pkh)
    (h2 : env.walletAt params.tokenAddress = .ok contract)
    (h3 : env.storage params.tokenAddress = .ok ⟨counter⟩)
    (h4 : env.publicKey = .ok signerKey)
    (h5 : contract.parameterSchemaEncode "transfer"
      (formTransferParams pkh RELAYER_ADDRESS params) = .ok encoded)
    (h6 : env.packData ⟨encoded, contract.schemaRootType⟩ = .ok packed1)
    (h7 : env.getChainId = .ok chainId)
    (h8 : env.packData (getUnpackedUniques params.tokenAddress chainId counter
      (env.blake2bHex (hex2buf packed1) 32)) = .ok packed2)
    (h9 : env.sign packed2 = .ok sig) :
    (forgeTxAndParams env params).trace =
      [.walletGetPkh, .walletAt params.tokenAddress,
       .storageRead params.tokenAddress, .signerPublicKey,
       .rpcPackData ⟨encoded, contract.schemaRootType⟩, .rpcGetChainId,
       .rpcPackData (getUnpackedUniques params.tokenAddress chainId counter
         (env.blake2bHex (hex2buf packed1) 32)),
       .signerSign packed2] := by
  rw [forgeTxAndParams_run env params pkh contract counter encoded signerKey
    packed1 chainId packed2 sig h1 h2 h3 h4 h5 h6 h7 h8 h9]

/-- Witness for C9 at the concrete test double. -/
theorem forge_steps_strictly_sequential_witness :
    (forgeTxAndParams testEnv testParams).trace =
      [.walletGetPkh, .walletAt "KT1token", .storageRead "KT1token",
       .signerPublicKey, .rpcPackData ⟨.int "7", .prim "unit" []⟩,
       .rpcGetChainId,
       .rpcPackData (getUnpackedUniques "KT1token" "NetXtest" 5 "abcd"),
       .signerSign "0a"] :=
  forge_steps_strictly_sequential testEnv testParams "tz1source" testContract
    5 (.int "7") "edpkSIGNER" "0a" "NetXtest" "0a" "sig:0a"
    rfl rfl rfl rfl rfl rfl rfl rfl rfl

/-- C10: the fixed relayer address credited by the fee leg and the fixed
estimator address bound as the read-only simulation identity are the same
constant account `tz1VSUr8wwNhLAzempoch5d6hLRiTh8Cjcjb`: every built batch
credits its second leg to `ESTIMATOR_ADDRESS`, and every `estimate` run binds
`ESTIMATOR_ADDRESS` (with the fixed public key) as the signer before any
other step. -/
theorem relayer_equals_estimator_identity (from_ : String) (p : ForgeTxParams)
    (env : EstEnv) (pp : PermitParams) :
    RELAYER_ADDRESS = ESTIMATOR_ADDRESS ∧
    RELAYER_ADDRESS = "tz1VSUr8wwNhLAzempoch5d6hLRiTh8Cjcjb" ∧
    formTransferParams from_ RELAYER_ADDRESS p =
      [[{ from_ := from_,
          txs := [{ to_ := p.to_, token_id := p.tokenId, amount := p.amount },
                  { to_ := ESTIMATOR_ADDRESS, token_id := p.tokenId,
                    amount := p.relayerFee }] }]] ∧
    (estimate env pp).trace.head? =
      some (.setSignerProvider ESTIMATOR_ADDRESS ESTIMATOR_PUBLIC_KEY) :=
  ⟨rfl, rfl, rfl, rfl⟩

end GasStation
